import Mathlib

set_option autoImplicit false

/-!
# SPDR — verification of the deep-research loop against its specification

Shallow embedding of the SPDR repository (an agentic stock-research loop):
the deduplication utility (`src/utils/embeddings.py`), the research memory
(`src/components/memory.py`), the query-expansion tool
(`src/components/tools.py`), the planning state machine and research loop
(`src/components/deep_search.py`), and the CLI entry point (`main.py`).

Modelling conventions:

* Python floats are modelled as an arbitrary linear ordered field `α`;
  the square root used by `np.linalg.norm` is an explicit parameter
  `sqrt : α → α` (the norm of a float vector is not exactly representable,
  and every claim proved here holds for every choice of `sqrt`).
* The embedding model is an external collaborator (`SentenceTransformer`);
  it is modelled as a function `embed : String → List α`.  The batch call
  `compute_embeddings(texts)` encodes each text independently, so it is
  modelled element-wise.
* The language model and the news-search backend are external
  collaborators, modelled as the record `Collab` of deterministic
  functions; the structured-generation result dictionary is modelled by
  `SResp`, which records exactly the keys the orchestrator reads
  (a key that is present but not a list is treated as absent, matching the
  `isinstance(..., list)` guards at every read site).
* Configuration values (`SIMILARITY_THRESHOLD`, `MAX_MEMORY_ITEMS`,
  `MAX_STEPS`, `TOKEN_BUDGET`) are parameters; environment loading is out
  of scope per the specification.
* Logging, `colorama`, and `time.sleep` are side-effect-free in the model.
-/

namespace SPDR

/-! ## Embedding utilities — `src/src/utils/embeddings.py` -/

variable {α : Type} [LinearOrderedField α]

/-- `np.dot` of two vectors (the embeddings have equal length in the
source; on that domain `zipWith` is exact). -/
def dot (v w : List α) : α := (List.zipWith (· * ·) v w).sum

/-- `np.linalg.norm`: the L2 norm, `sqrt` of the sum of squares. -/
def norm (sqrt : α → α) (v : List α) : α := sqrt (dot v v)

/-- `cosine_similarity(vec1, vec2)`: dot product divided by the product of
the L2 norms, with no guard against a zero denominator
(`embeddings.py:59-73`). -/
def cosine_similarity (sqrt : α → α) (v w : List α) : α :=
  dot v w / (norm sqrt v * norm sqrt w)

/-- The scan inside `np.argmax`: keep the first strictly-greatest value
seen so far, together with its index. -/
def argmaxGo : Nat → α → Nat → List α → Nat × α
  | best, bestVal, _, [] => (best, bestVal)
  | best, bestVal, i, y :: ys =>
    if bestVal < y then argmaxGo i y (i + 1) ys
    else argmaxGo best bestVal (i + 1) ys

/-- `np.argmax(similarities)` paired with `similarities[max_idx]`: the
first index attaining the maximum, and the maximum itself.  `np.argmax`
raises on an empty input; the `[]` branch is unreachable because
`find_most_similar` guards on empty candidate lists. -/
def np_argmax_with_value : List α → Nat × α
  | [] => (0, 0)
  | s :: rest => argmaxGo 0 s 1 rest

/-- `find_most_similar(query, candidates)` (`embeddings.py:76-107`):
`(-1, 0.0)` on an empty candidate list, otherwise the index of the most
similar candidate and its cosine similarity to the query. -/
def find_most_similar (sqrt : α → α) (embed : String → List α)
    (query : String) (candidates : List String) : Int × α :=
  if candidates.isEmpty then (-1, 0)
  else
    let query_embedding := embed query
    let similarities :=
      candidates.map fun c => cosine_similarity sqrt query_embedding (embed c)
    let m := np_argmax_with_value similarities
    ((m.1 : Int), m.2)

/-- `is_duplicate(query, candidates, threshold)` (`embeddings.py:110-132`):
`False` immediately on an empty candidate list; otherwise compares the
best similarity against the threshold (the configured
`SIMILARITY_THRESHOLD` when the argument is `None`). -/
def is_duplicate (sqrt : α → α) (embed : String → List α) (simThreshold : α)
    (threshold : Option α) (query : String) (candidates : List String) : Bool :=
  if candidates.isEmpty then false
  else
    let t := threshold.getD simThreshold
    decide (t ≤ (find_most_similar sqrt embed query candidates).2)

/-! ## Research memory — `src/src/components/memory.py` -/

/-- `MemoryItem`: content, source and metadata (`memory.py:11-21`).
Metadata values are only ever the empty dict or caller-supplied string
maps; no claim reads them. -/
structure MemoryItem where
  content : String
  source : String
  metadata : List (String × String) := []
deriving DecidableEq

/-- `MemoryItem.__str__`. -/
def MemoryItem.toStr (item : MemoryItem) : String :=
  item.content ++ " (Source: " ++ item.source ++ ")"

/-- `ResearchMemory` (`memory.py:24-37`); `max_items` is the configured
`MAX_MEMORY_ITEMS` and is passed as a parameter to each operation. -/
structure ResearchMemory where
  facts : List MemoryItem := []
  questions : List String := []
  answered_questions : List String := []
  search_queries : List String := []
  visited_sources : List String := []
deriving DecidableEq

variable (sqrt : α → α) (embed : String → List α) (simThreshold : α)
  (max_items : Nat)

/-- `add_fact(content, source, metadata)` (`memory.py:39-66`): reject
similarity-duplicates, else append and pop the head on overflow.  Returns
the source's boolean together with the updated memory. -/
def add_fact (m : ResearchMemory) (content source : String)
    (metadata : List (String × String) := []) : Bool × ResearchMemory :=
  if is_duplicate sqrt embed simThreshold none content (m.facts.map (·.content)) then
    (false, m)
  else
    let facts := m.facts ++ [{ content := content, source := source, metadata := metadata }]
    let facts := if max_items < facts.length then facts.tail else facts
    (true, { m with facts := facts })

/-- `add_question(question)` (`memory.py:68-89`): duplicate check against
`questions + answered_questions`, then append with overflow eviction. -/
def add_question (m : ResearchMemory) (question : String) : Bool × ResearchMemory :=
  if is_duplicate sqrt embed simThreshold none question
      (m.questions ++ m.answered_questions) then
    (false, m)
  else
    let questions := m.questions ++ [question]
    let questions := if max_items < questions.length then questions.tail else questions
    (true, { m with questions := questions })

/-- `mark_question_answered(question)` (`memory.py:91-104`): exact-match
removal of the first occurrence (`list.remove`) from `questions`, append
to `answered_questions` with overflow eviction; no-op when the question is
not open. -/
def mark_question_answered (m : ResearchMemory) (question : String) : ResearchMemory :=
  if question ∈ m.questions then
    let questions := m.questions.erase question
    let answered := m.answered_questions ++ [question]
    let answered := if max_items < answered.length then answered.tail else answered
    { m with questions := questions, answered_questions := answered }
  else m

/-- `add_search_query(query)` (`memory.py:106-127`). -/
def add_search_query (m : ResearchMemory) (query : String) : Bool × ResearchMemory :=
  if is_duplicate sqrt embed simThreshold none query m.search_queries then
    (false, m)
  else
    let search_queries := m.search_queries ++ [query]
    let search_queries :=
      if max_items < search_queries.length then search_queries.tail else search_queries
    (true, { m with search_queries := search_queries })

/-- `add_visited_source(source)` (`memory.py:129-148`): exact-match
membership test, then append with overflow eviction. -/
def add_visited_source (m : ResearchMemory) (source : String) : Bool × ResearchMemory :=
  if source ∈ m.visited_sources then (false, m)
  else
    let visited_sources := m.visited_sources ++ [source]
    let visited_sources :=
      if max_items < visited_sources.length then visited_sources.tail else visited_sources
    (true, { m with visited_sources := visited_sources })

/-- `get_relevant_facts(query, max_facts)` (`memory.py:166-200`): empty
result on empty fact list (before any embedding call); otherwise rank the
facts by cosine similarity to the query with Python's stable
`sort(key=..., reverse=True)` — modelled by the stable `List.mergeSort`
with the descending comparison — and take the top `max_facts`. -/
def get_relevant_facts (m : ResearchMemory) (query : String)
    (max_facts : Nat := 5) : List MemoryItem :=
  if m.facts.isEmpty then []
  else
    let query_embedding := embed query
    let similarities :=
      m.facts.map fun item => cosine_similarity sqrt query_embedding (embed item.content)
    let fact_similarities := m.facts.zip similarities
    let sorted := fact_similarities.mergeSort fun a b => decide (b.2 ≤ a.2)
    (sorted.map (·.1)).take max_facts

/-- `get_unanswered_questions()` (`memory.py:202-209`). -/
def get_unanswered_questions (m : ResearchMemory) : List String := m.questions

/-- The summary dictionary returned by `get_summary()` (`memory.py:211-224`). -/
structure MemorySummary where
  facts : Nat
  questions : Nat
  answered_questions : Nat
  search_queries : Nat
  visited_sources : Nat
deriving DecidableEq

/-- `get_summary()`: pure read of the five list lengths. -/
def get_summary (m : ResearchMemory) : MemorySummary :=
  { facts := m.facts.length
    questions := m.questions.length
    answered_questions := m.answered_questions.length
    search_queries := m.search_queries.length
    visited_sources := m.visited_sources.length }

/-! ## Reachable memory states

The memory operations, reified as an operation alphabet: a memory state is
reachable when it is the fold of some operation sequence over the freshly
constructed (empty) `ResearchMemory`. -/

/-- One call to a mutating `ResearchMemory` operation. -/
inductive MemOp where
  | addFact (content source : String)
  | addQuestion (question : String)
  | markQuestionAnswered (question : String)
  | addSearchQuery (query : String)
  | addVisitedSource (source : String)

/-- Apply one operation (result booleans discarded, as callers may). -/
def applyOp (m : ResearchMemory) : MemOp → ResearchMemory
  | .addFact content source => (add_fact sqrt embed simThreshold max_items m content source).2
  | .addQuestion q => (add_question sqrt embed simThreshold max_items m q).2
  | .markQuestionAnswered q => mark_question_answered max_items m q
  | .addSearchQuery q => (add_search_query sqrt embed simThreshold max_items m q).2
  | .addVisitedSource s => (add_visited_source max_items m s).2

/-- The memory state reached by running `ops` from a fresh memory. -/
def runOps (ops : List MemOp) : ResearchMemory :=
  ops.foldl (applyOp sqrt embed simThreshold max_items) {}

/-! ## External collaborators — model, search backend, JSON parsing

The language model and news search are out-of-scope collaborators
(spec §1); they are modelled as deterministic functions.  The structured
generation contract returns a dictionary; `SResp` records exactly the keys
the orchestrator ever reads, each `some` exactly when the key is present
with a value of the type the read site checks (`isinstance(..., list)` for
the three list keys).  The degraded `{text, error}` shape from
`llm_interface.py:164` is the case where only `text` is populated. -/

/-- One parsed news article (`tools.py:54-56`). -/
structure Article where
  title : String
  content : String
  source : String
deriving DecidableEq

/-- A structured-generation result, restricted to the keys read by the
orchestrator and the query-expansion tool. -/
structure SResp where
  queries : Option (List String) := none
  text : Option String := none
  insights : Option (List String) := none
  follow_up_questions : Option (List String) := none
deriving DecidableEq

/-- The external collaborators: free-text generation
(`generate(prompt, system_prompt)`), structured generation
(`generate_structured(prompt, system_prompt, json_schema)` — the schema
and temperature are fixed at each call site and do not vary within one
model of a run), and the news search (`FinanceNewsSearchTool.search`,
returning parsed articles). -/
structure Collab where
  generate : String → String → String
  generateStructured : String → String → SResp
  searchNews : String → List Article

/-- Python's `json.loads` outcome as consumed by `expand_query`: `none`
models a raised exception, `jlist` a JSON array (the source keeps whatever
elements the array holds; the orchestrator treats them as query strings),
`other` any other JSON value (the `isinstance(..., list)` test then
fails and the code falls through). -/
inductive PyJson where
  | jlist (elems : List String)
  | other
deriving DecidableEq

/-! ## Python string helpers used by `expand_query` -/

/-- `text.find(c)` for a single character: index of the first occurrence,
`none` standing for Python's `-1`. -/
def pyFind (c : Char) (s : String) : Option Nat :=
  s.data.findIdx? (· = c)

/-- `text.rfind(c)` for a single character: index of the last occurrence. -/
def pyRfind (c : Char) (s : String) : Option Nat :=
  match s.data.reverse.findIdx? (· = c) with
  | some i => some (s.data.length - 1 - i)
  | none => none

/-- `text[a:b]` for `0 ≤ a ≤ b`. -/
def pySlice (s : String) (a b : Nat) : String :=
  ⟨(s.data.drop a).take (b - a)⟩

/-- The whitespace set of Python's `str.strip()` (ASCII part). -/
def pyIsSpace (c : Char) : Bool :=
  c = ' ' || c = '\t' || c = '\n' || c = '\r' || c = '\x0b' || c = '\x0c'

/-- Python's `line.strip()`. -/
def pyStrip (s : String) : String :=
  ⟨((s.data.dropWhile pyIsSpace).reverse.dropWhile pyIsSpace).reverse⟩

/-- `text.split(sep)` for a one-character separator, on the character
list: every maximal (possibly empty) run between separators, so the empty
text yields `[[]]` and a trailing separator yields a trailing `[]`,
exactly as in Python. -/
def pySplitChars (sep : Char) : List Char → List (List Char)
  | [] => [[]]
  | c :: cs =>
    match pySplitChars sep cs with
    | [] => [[]]
    | piece :: pieces =>
      if c = sep then [] :: piece :: pieces else (c :: piece) :: pieces

/-- `text.split("\n")`. -/
def pySplit (sep : Char) (s : String) : List String :=
  (pySplitChars sep s.data).map fun piece => ⟨piece⟩

/-! ## Prompt texts — `tools.py` and `deep_search.py` -/

/-- System prompt of `QueryExpansionTool.expand_query` (`tools.py:109-114`). -/
def expandSystemPrompt : String :=
  "You are a query expansion expert. Your task is to expand a given query into multiple related queries that would help gather comprehensive information about the topic. Follow these guidelines:\n1. Generate search queries that cover different aspects of the topic.\n2. Ensure each query is specific and focused.\n3. Include variations using different terminology.\n4. Consider related topics that would provide useful context.\n5. Output ONLY the expanded queries in a JSON list format, nothing else."

/-- User prompt of `expand_query` (`tools.py:117-120`). -/
def expandUserPrompt (query : String) (context : Option String) : String :=
  "Original query: " ++ query ++
    (match context with
     | some c => "\nContext: " ++ c
     | none => "") ++
    "\nGenerate 3-5 expanded search queries that will help find comprehensive information about this topic."

/-- System prompt of `_execute_reason` (`deep_search.py:235-241`). -/
def reasonSystemPrompt : String :=
  "You are a financial researcher analyzing information about stocks and markets. \nYour task is to analyze the provided facts, extract insights, and identify gaps in information.\nFollow these guidelines:\n1. Analyze the facts to extract key insights relevant to the focus question.\n2. Identify important connections or patterns in the data.\n3. List follow-up questions that would help fill gaps in knowledge.\n4. Keep your analysis focused on the specific focus question."

/-- User prompt of `_execute_reason` (`deep_search.py:243-248`). -/
def reasonUserPrompt (focus_question facts_str : String) : String :=
  "Focus Question: " ++ focus_question ++ "\n\nFacts:\n" ++ facts_str ++
    "\n\nAnalyze these facts to provide insights about the focus question. Then identify 2-3 specific follow-up questions that would help fill gaps in knowledge."

/-- System prompt of `_generate_final_answer` (`deep_search.py:304-311`). -/
def answerSystemPrompt : String :=
  "You are a financial research analyst providing insights based on information gathered. \nYour task is to synthesize the provided facts into a comprehensive, well-structured answer.\nFollow these guidelines:\n1. Focus on directly answering the original research question.\n2. Organize your response logically with clear sections if needed.\n3. Be specific and cite information sources where relevant.\n4. Acknowledge limitations or uncertainties in the available information.\n5. Provide actionable conclusions or recommendations if appropriate."

/-- User prompt of `_generate_final_answer` (`deep_search.py:313-318`). -/
def answerUserPrompt (research_query facts_str : String) : String :=
  "Research Question: " ++ research_query ++ "\n\nFacts collected during research:\n" ++
    facts_str ++ "\n\nBased on these facts, provide a comprehensive answer to the research question."

/-- The `"\n".join(["- " + str(fact), ...])` formatting shared by
`_execute_reason` and `_generate_final_answer`. -/
def formatFactLines (facts : List MemoryItem) : String :=
  String.intercalate "\n" (facts.map fun fact => "- " ++ fact.toStr)

/-! ## Query expansion — `src/src/components/tools.py` -/

/-- `QueryExpansionTool.expand_query(query, context)` (`tools.py:97-166`),
with `jsonLoads` the Python `json.loads` collaborator.  The ladder: a
schema-shaped `queries` list is returned directly; otherwise, when raw
text is present, the substring from the first `[` to the last `]` is
parsed as a literal array and returned if it is a list; otherwise the
non-empty stripped lines of the raw text; otherwise the original query. -/
def expand_query (jsonLoads : String → Option PyJson) (collab : Collab)
    (query : String) (context : Option String := none) : List String :=
  let response := collab.generateStructured (expandUserPrompt query context) expandSystemPrompt
  match response.queries with
  | some queries => queries
  | none =>
    match response.text with
    | none => [query]
    | some text =>
      let fromBrackets : Option (List String) :=
        match pyFind '[' text, pyRfind ']' text with
        | some start_idx, some end_idx =>
          if start_idx < end_idx then
            match jsonLoads (pySlice text start_idx (end_idx + 1)) with
            | some (.jlist expanded_queries) => some expanded_queries
            | _ => none
          else none
        | _, _ => none
      match fromBrackets with
      | some expanded_queries => expanded_queries
      | none =>
        let lines := pySplit '\n' text
        let queries := (lines.map pyStrip).filter (· ≠ "")
        if queries.isEmpty then [query] else queries

/-! ## Planner and research loop — `src/src/components/deep_search.py` -/

/-- `ActionType` (`deep_search.py:17-23`). -/
inductive ActionType where
  | search
  | read
  | reason
  | answer
deriving DecidableEq

/-- The action-parameter dictionary: `_plan_next_action` populates at most
`"query"` or `"focus_question"`. -/
structure ActionParams where
  query : Option String := none
  focus_question : Option String := none
deriving DecidableEq

/-- `_plan_next_action` (`deep_search.py:118-169`): the deterministic
planning policy over the memory summary and the step counter. -/
def plan_next_action (m : ResearchMemory) (current_step max_steps : Nat)
    (research_query : String) : ActionType × ActionParams :=
  let memory_summary := get_summary m
  let facts_count := memory_summary.facts
  if facts_count = 0 then
    (.search, { query := some research_query })
  else
    match get_unanswered_questions m with
    | question :: _ =>
      if current_step % 3 = 0 ∨ facts_count < 3 then
        (.search, { query := some question })
      else
        (.reason, { focus_question := some question })
    | [] =>
      if 3 ≤ facts_count ∨ max_steps / 2 ≤ current_step then
        (.answer, {})
      else
        (.search, { query := some research_query })

/-- The session state owned by `DeepResearcher` (`deep_search.py:52-57`),
plus one ghost field: `budget_exceeded` records that the
budget-exhaustion `break` (`deep_search.py:87-89`, the `logger.warning`
branch) fired; it affects nothing else. -/
structure SessionState where
  current_step : Nat := 0
  total_tokens_used : Nat := 0
  research_query : String := ""
  research_complete : Bool := false
  answer : String := ""
  memory : ResearchMemory := {}
  budget_exceeded : Bool := false
deriving DecidableEq

variable (collab : Collab) (jsonLoads : String → Option PyJson)
  (max_steps token_budget : Nat)

/-- `_execute_search` (`deep_search.py:171-206`): expand the query, log it
in the search-query list, collect the articles of every expanded query in
order, and add each as a fact with source `"<provider> - <title>"` and
content `"<title>: <content>"`. -/
def execute_search (st : SessionState) (params : ActionParams) : SessionState :=
  let query := params.query.getD st.research_query
  let expanded_queries := expand_query jsonLoads collab query
  let memory := (add_search_query sqrt embed simThreshold max_items st.memory query).2
  let all_articles := expanded_queries.flatMap collab.searchNews
  let memory := all_articles.foldl
    (fun m article =>
      (add_fact sqrt embed simThreshold max_items m
        (article.title ++ ": " ++ article.content)
        (article.source ++ " - " ++ article.title)).2)
    memory
  { st with memory := memory }

/-- `_execute_read` (`deep_search.py:208-218`): a logged no-op. -/
def execute_read (st : SessionState) (_params : ActionParams) : SessionState := st

/-- `_execute_reason` (`deep_search.py:220-285`): ask the model for
insights and follow-up questions over the facts relevant to the focus
question, store them, then mark the focus question answered. -/
def execute_reason (st : SessionState) (params : ActionParams) : SessionState :=
  let focus_question := params.focus_question.getD st.research_query
  let relevant_facts := get_relevant_facts sqrt embed st.memory focus_question
  let facts_str := formatFactLines relevant_facts
  let response := collab.generateStructured (reasonUserPrompt focus_question facts_str)
    reasonSystemPrompt
  let memory :=
    match response.insights with
    | some insights =>
      insights.foldl
        (fun m insight => (add_fact sqrt embed simThreshold max_items m insight "Reasoning").2)
        st.memory
    | none => st.memory
  let memory :=
    match response.follow_up_questions with
    | some follow_ups =>
      follow_ups.foldl
        (fun m q => (add_question sqrt embed simThreshold max_items m q).2)
        memory
    | none => memory
  let memory := mark_question_answered max_items memory focus_question
  { st with memory := memory }

/-- `_generate_final_answer` (`deep_search.py:297-325`): synthesize the
answer over all facts currently held. -/
def generate_final_answer (st : SessionState) : SessionState :=
  let facts_str := formatFactLines st.memory.facts
  let answer := collab.generate (answerUserPrompt st.research_query facts_str)
    answerSystemPrompt
  { st with answer := answer }

/-- One planned-and-executed iteration body (`deep_search.py:91-103`):
plan, dispatch on the action, and on `ANSWER` set `research_complete`. -/
def do_step (st : SessionState) : SessionState :=
  let (action, action_params) :=
    plan_next_action st.memory st.current_step max_steps st.research_query
  match action with
  | .search => execute_search sqrt embed simThreshold max_items collab jsonLoads st action_params
  | .read => execute_read st action_params
  | .reason => execute_reason sqrt embed simThreshold max_items collab st action_params
  | .answer =>
    { generate_final_answer collab st with research_complete := true }

/-- The `while` loop of `research` (`deep_search.py:83-106`): run while
the research is incomplete and the step counter is below `max_steps`;
each iteration first increments the counter, then breaks if the token
budget is spent, else plans and executes.  `fuel` bounds the recursion;
`research` supplies `fuel = max_steps`, which the loop-variant argument
`max_steps - current_step` never exceeds, so the `0` case coincides with
the loop condition turning false. -/
def research_loop : Nat → SessionState → SessionState
  | 0, st => st
  | fuel + 1, st =>
    if st.research_complete = false ∧ st.current_step < max_steps then
      let st := { st with current_step := st.current_step + 1 }
      if token_budget ≤ st.total_tokens_used then
        { st with budget_exceeded := true }
      else
        research_loop fuel
          (do_step sqrt embed simThreshold max_items collab jsonLoads max_steps st)
    else st

/-- `research(query)` (`deep_search.py:59-116`): reset the session state
with a fresh memory, seed the original query as an open question, run the
loop, and force finalization when the loop exits incomplete.  The source
returns `self.answer`; the model returns the whole final state, whose
`.answer` is that value. -/
def research (query : String) : SessionState :=
  let st : SessionState :=
    { current_step := 0, total_tokens_used := 0, research_query := query
      research_complete := false, answer := ""
      memory := (add_question sqrt embed simThreshold max_items {} query).2 }
  let st := research_loop sqrt embed simThreshold max_items collab jsonLoads
    max_steps token_budget max_steps st
  if st.research_complete = false then generate_final_answer collab st else st

/-! ## CLI entry point — `src/main.py` -/

/-- The outcome of the body of `main()`'s `try` block: normal completion,
an exception deriving `Exception`, or `KeyboardInterrupt` (which derives
only `BaseException` and is therefore not caught by `except Exception`). -/
inductive RunOutcome where
  | ok (answer : String)
  | raisesException (message : String)
  | keyboardInterrupt
deriving DecidableEq

/-- The value `main()` returns (`main.py:19-60`): `0` on success, `1` from
the `except Exception` handler; `none` when `KeyboardInterrupt` escapes
the function. -/
def mainReturn : RunOutcome → Option Nat
  | .ok _ => some 0
  | .raisesException _ => some 1
  | .keyboardInterrupt => none

/-- How the process started by `sys.exit(main())` (`main.py:63-64`)
terminates: by exiting with a status code, or killed by a signal (the
shell then observes wait status `128 + signal`). -/
inductive ProcessTermination where
  | exited (code : Nat)
  | killedBySignal (signal : Nat)
deriving DecidableEq

/-- The SIGINT signal number. -/
def sigint : Nat := 2

/-- The termination of `sys.exit(main())` per the CPython runtime
(3.8 and later): when `main` returns a code the process exits with it;
when `KeyboardInterrupt` escapes `main` — `except Exception` does not
catch it, since `KeyboardInterrupt` derives only `BaseException` — the
interpreter prints the traceback and re-raises SIGINT, so the process is
killed by signal 2 and a shell observes wait status 130, not an exit
code of 1. -/
def processTermination (r : RunOutcome) : ProcessTermination :=
  match mainReturn r with
  | some code => .exited code
  | none => .killedBySignal sigint

/-! ## Specification-side definitions

These definitions transcribe the specification's / claims' wording, to be
compared with the definitions above that embed the source.  They are used
only on the right-hand side of refinement theorems. -/

/-- The planning policy exactly as the specification states it (spec §4.5
items 1–4): facts = 0 → SEARCH the original query; else with an open
question (first in insertion order) → SEARCH it when
`currentStep mod 3 == 0` or fewer than 3 facts, REASON on it otherwise;
else ANSWER when 3 or more facts or `currentStep ≥ maxSteps / 2` (integer
division); else SEARCH the original query. -/
def plannerPolicySpec (summary : MemorySummary) (openQuestions : List String)
    (currentStep maxSteps : Nat) (originalQuery : String) : ActionType × ActionParams :=
  if summary.facts = 0 then
    (.search, { query := some originalQuery })
  else
    match openQuestions with
    | firstOpen :: _ =>
      if currentStep % 3 = 0 ∨ summary.facts < 3 then
        (.search, { query := some firstOpen })
      else
        (.reason, { focus_question := some firstOpen })
    | [] =>
      if 3 ≤ summary.facts ∨ maxSteps / 2 ≤ currentStep then
        (.answer, {})
      else
        (.search, { query := some originalQuery })

/-- The relevance ranking exactly as the claim states it: facts keyed by
their original insertion index, ordered by descending cosine similarity to
the query with ties between equal similarities broken by ascending
insertion index, truncated to `max_facts`. -/
def relevantFactsSpec (sqrt : α → α) (embed : String → List α)
    (m : ResearchMemory) (query : String) (max_facts : Nat := 5) : List MemoryItem :=
  if m.facts.isEmpty then []
  else
    let scored :=
      m.facts.map fun item =>
        (item, cosine_similarity sqrt (embed query) (embed item.content))
    let indexed := scored.enum
    let sortedLex := indexed.mergeSort fun a b =>
      decide (b.2.2 < a.2.2 ∨ (a.2.2 = b.2.2 ∧ a.1 ≤ b.1))
    (sortedLex.map (·.2.1)).take max_facts

/-- Extraction strategy (a) of the fallback ladder (spec §4.3): locate a
bracketed substring (first `[` to last `]`) and parse it as a literal
array; succeeds exactly when that parses to a list. -/
def strategyBracketArray (jsonLoads : String → Option PyJson)
    (text : String) : Option (List String) :=
  match pyFind '[' text, pyRfind ']' text with
  | some start_idx, some end_idx =>
    if start_idx < end_idx then
      match jsonLoads (pySlice text start_idx (end_idx + 1)) with
      | some (.jlist elems) => some elems
      | _ => none
    else none
  | _, _ => none

/-- Extraction strategy (b) of the fallback ladder (spec §4.3): split the
raw text into lines and keep the non-empty stripped ones; succeeds exactly
when some line survives. -/
def strategyLines (text : String) : Option (List String) :=
  let queries := ((pySplit '\n' text).map pyStrip).filter (· ≠ "")
  if queries.isEmpty then none else queries

/-- The full fallback ladder as the specification words it (spec §4.3,
§9): return a schema-shaped `queries` list directly; otherwise run the
prioritized extraction strategies over the raw text, short-circuiting on
the first success; return `[originalQuery]` when everything fails (also
when no raw text is present). -/
def expandLadderSpec (jsonLoads : String → Option PyJson) (response : SResp)
    (originalQuery : String) : List String :=
  match response.queries with
  | some queries => queries
  | none =>
    match response.text with
    | some text =>
      ((strategyBracketArray jsonLoads text).orElse
        (fun _ => strategyLines text)).getD [originalQuery]
    | none => [originalQuery]

/-- The questions-side invariant carried through reachable memory states:
the open questions hold no exact duplicates, and no string is listed both
open and answered. -/
def QuestionsInv (m : ResearchMemory) : Prop :=
  m.questions.Nodup ∧ ∀ s, s ∈ m.questions → s ∉ m.answered_questions

/-- All five memory lists bounded by the capacity. -/
def LengthsInv (max_items : Nat) (m : ResearchMemory) : Prop :=
  m.facts.length ≤ max_items ∧ m.questions.length ≤ max_items ∧
    m.answered_questions.length ≤ max_items ∧
    m.search_queries.length ≤ max_items ∧ m.visited_sources.length ≤ max_items

/-- Once a session state is marked complete, its answer is the model's
synthesis of the answer prompt over the facts held at completion time —
the invariant the loop maintains from the `ANSWER` execution onwards. -/
def AnswerSynthesized (collab : Collab) (st : SessionState) : Prop :=
  st.research_complete = true →
    st.answer = collab.generate
      (answerUserPrompt st.research_query (formatFactLines st.memory.facts))
      answerSystemPrompt

/-! ## Helper lemmas on the embedding utilities -/

theorem argmaxGo_snd (ys : List α) : ∀ (best i : Nat) (bestVal : α),
    (argmaxGo best bestVal i ys).2 = ys.foldl max bestVal := by
  induction ys with
  | nil => intro best i bestVal; rfl
  | cons y ys ih =>
    intro best i bestVal
    simp only [argmaxGo, List.foldl_cons]
    by_cases h : bestVal < y
    · rw [if_pos h, ih, max_eq_right h.le]
    · rw [if_neg h, ih, max_eq_left (not_lt.mp h)]

theorem le_foldl_max_iff (t : α) (l : List α) : ∀ bestVal : α,
    t ≤ l.foldl max bestVal ↔ t ≤ bestVal ∨ ∃ x ∈ l, t ≤ x := by
  induction l with
  | nil => intro bestVal; simp
  | cons y ys ih =>
    intro bestVal
    rw [List.foldl_cons, ih, le_max_iff]
    constructor
    · rintro ((h | h) | ⟨x, hx, hxt⟩)
      · exact Or.inl h
      · exact Or.inr ⟨y, List.mem_cons_self y ys, h⟩
      · exact Or.inr ⟨x, List.mem_cons_of_mem y hx, hxt⟩
    · rintro (h | ⟨x, hx, hxt⟩)
      · exact Or.inl (Or.inl h)
      · rcases List.mem_cons.mp hx with rfl | hx
        · exact Or.inl (Or.inr hxt)
        · exact Or.inr ⟨x, hx, hxt⟩

/-- `is_duplicate` decides exactly "some existing text reaches the
effective threshold": for the empty candidate list both sides are false,
and otherwise the compared value is the maximum similarity. -/
theorem is_duplicate_iff (threshold : Option α) (query : String)
    (candidates : List String) :
    is_duplicate sqrt embed simThreshold threshold query candidates = true ↔
      ∃ s ∈ candidates,
        threshold.getD simThreshold ≤
          cosine_similarity sqrt (embed query) (embed s) := by
  cases candidates with
  | nil => simp [is_duplicate]
  | cons c cs =>
    simp only [is_duplicate, find_most_similar, List.isEmpty_cons, if_false,
      Bool.false_eq_true, List.map_cons, np_argmax_with_value,
      decide_eq_true_eq]
    rw [argmaxGo_snd, le_foldl_max_iff]
    simp only [List.mem_map, List.mem_cons]
    constructor
    · rintro (h | ⟨x, ⟨s, hs, rfl⟩, hxt⟩)
      · exact ⟨c, Or.inl rfl, h⟩
      · exact ⟨s, Or.inr hs, hxt⟩
    · rintro ⟨s, hs | hs, hst⟩
      · exact Or.inl (hs ▸ hst)
      · exact Or.inr ⟨_, ⟨s, hs, rfl⟩, hst⟩

/-! ## Claim theorems -/

/-- C1: the planner is a deterministic function of the memory summary and
the step counter, implementing exactly the specified policy: SEARCH the
original query when no facts are recorded (any step); with open questions,
SEARCH the first open question when `currentStep mod 3 == 0` or fewer than
3 facts, REASON on it otherwise; with no open questions, ANSWER when the
fact count is at least 3 or `currentStep ≥ maxSteps / 2` (integer
division), else SEARCH the original query. -/
theorem C1_planner_implements_policy :
    ∀ (m : ResearchMemory) (current_step max_steps : Nat) (research_query : String),
      plan_next_action m current_step max_steps research_query =
        plannerPolicySpec (get_summary m) (get_unanswered_questions m)
          current_step max_steps research_query :=
  fun _ _ _ _ => rfl

/-- C4: `is_duplicate` is true exactly when the maximum cosine similarity
between the candidate's embedding and an existing text's embedding reaches
the effective threshold (the configured threshold when none is passed),
and on an empty existing list it is false for every embedding function
(no embedding call is made). -/
theorem C4_is_duplicate_threshold (threshold : Option α) (query : String)
    (existing : List String) :
    (is_duplicate sqrt embed simThreshold threshold query existing = true ↔
      ∃ s ∈ existing,
        threshold.getD simThreshold ≤
          cosine_similarity sqrt (embed query) (embed s))
    ∧ ∀ embed2 : String → List α,
        is_duplicate sqrt embed2 simThreshold threshold query [] = false :=
  ⟨is_duplicate_iff sqrt embed simThreshold threshold query existing,
    fun _ => rfl⟩

/-- C4 witness: at a concrete embedder over `ℚ` the equivalence decides a
duplicate at an explicit input, and the empty-list clause holds. -/
theorem C4_is_duplicate_threshold_witness :
    is_duplicate id (fun _ => [(1 : ℚ)]) (85/100) none "a" ["b"] = true
    ∧ ∀ embed2 : String → List ℚ,
        is_duplicate id embed2 (85/100) none "a" [] = false :=
  ⟨(C4_is_duplicate_threshold id (fun _ => [(1 : ℚ)]) (85/100) none "a" ["b"]).1.mpr
      ⟨"b", by simp, by norm_num [cosine_similarity, dot, norm]⟩,
    (C4_is_duplicate_threshold id (fun _ => [(1 : ℚ)]) (85/100) none "a" ["b"]).2⟩

/-- C8: `cosine_similarity` is, unconditionally, the dot product divided
by the product of the L2 norms — there is no zero-norm guard — and on a
zero vector the denominator is the literal `/ 0` (given only that the
square root of 0 is 0, true of `np.linalg.norm`). -/
theorem C8_cosine_division_unguarded :
    (∀ v w : List α, cosine_similarity sqrt v w = dot v w / (norm sqrt v * norm sqrt w))
    ∧ (sqrt 0 = 0 →
        norm sqrt [(0 : α)] = 0 ∧
          ∀ w : List α, cosine_similarity sqrt [(0 : α)] w = dot [(0 : α)] w / 0) := by
  refine ⟨fun v w => rfl, fun h => ?_⟩
  have hnorm : norm sqrt [(0 : α)] = 0 := by
    simp [norm, dot, h]
  refine ⟨hnorm, fun w => ?_⟩
  rw [cosine_similarity, hnorm, zero_mul]

/-- C8 witness: over `ℚ` with `sqrt = id` the zero-norm hypothesis holds
and the division-by-zero denominator is reached at the zero vector. -/
theorem C8_cosine_division_unguarded_witness :
    (id (0 : ℚ) = 0) ∧
      (norm id [(0 : ℚ)] = 0 ∧
        ∀ w : List ℚ, cosine_similarity id [(0 : ℚ)] w = dot [(0 : ℚ)] w / 0) :=
  ⟨rfl, (C8_cosine_division_unguarded id).2 rfl⟩

/-- C10: the success and uncaught-exception halves of the claim hold —
the entry point exits with code 0 exactly on successful completion and
with code 1 on an uncaught exception (the `except Exception` handler's
`return 1`) — but the user-interruption half fails on the code as
written: `except Exception` does not catch `KeyboardInterrupt`, which
escapes `main()` and terminates the process by re-raised SIGINT (wait
status 130), not with exit code 1.  The sibling entry point `example.py`
catches `KeyboardInterrupt` explicitly and returns 1, so the spec states
the intent and `main.py`'s missing handler is the bug. -/
theorem C10_exit_status :
    (∀ answer, processTermination (.ok answer) = .exited 0)
    ∧ (∀ message, processTermination (.raisesException message) = .exited 1)
    ∧ (∀ r, processTermination r = .exited 0 ↔ ∃ answer, r = .ok answer)
    ∧ processTermination .keyboardInterrupt = .killedBySignal sigint
    ∧ processTermination .keyboardInterrupt ≠ .exited 1 := by
  refine ⟨fun _ => rfl, fun _ => rfl, fun r => ?_, rfl, by decide⟩
  cases r <;> simp [processTermination, mainReturn]

/-! ## Capacity and eviction (towards C2) -/

/-- The shared append-then-trim step keeps a list within capacity. -/
theorem trim_length_le {β : Type} (mi : Nat) (l : List β) (x : β)
    (h : l.length ≤ mi) :
    (if mi < (l ++ [x]).length then (l ++ [x]).tail else l ++ [x]).length ≤ mi := by
  by_cases hc : mi < (l ++ [x]).length
  · rw [if_pos hc]
    simp only [List.length_tail, List.length_append, List.length_singleton]
    omega
  · rw [if_neg hc]
    simp only [List.length_append, List.length_singleton] at hc ⊢
    omega

/-- `tail` past an append of one element, for a nonempty prefix. -/
theorem tail_append_singleton {β : Type} (l : List β) (x : β) (h : l ≠ []) :
    (l ++ [x]).tail = l.tail ++ [x] := by
  cases l with
  | nil => exact absurd rfl h
  | cons a l => rfl

/-- Every memory operation preserves the capacity bounds. -/
theorem lengthsInv_applyOp (m : ResearchMemory) (op : MemOp)
    (h : LengthsInv max_items m) :
    LengthsInv max_items (applyOp sqrt embed simThreshold max_items m op) := by
  obtain ⟨hf, hq, ha, hs, hv⟩ := h
  cases op with
  | addFact content source =>
    dsimp only [applyOp, add_fact]
    split
    · exact ⟨hf, hq, ha, hs, hv⟩
    · exact ⟨trim_length_le max_items m.facts _ hf, hq, ha, hs, hv⟩
  | addQuestion q =>
    dsimp only [applyOp, add_question]
    split
    · exact ⟨hf, hq, ha, hs, hv⟩
    · exact ⟨hf, trim_length_le max_items m.questions _ hq, ha, hs, hv⟩
  | markQuestionAnswered q =>
    dsimp only [applyOp, mark_question_answered]
    split
    · refine ⟨hf, ?_, trim_length_le max_items m.answered_questions _ ha, hs, hv⟩
      exact le_trans (List.Sublist.length_le (List.erase_sublist q m.questions)) hq
    · exact ⟨hf, hq, ha, hs, hv⟩
  | addSearchQuery q =>
    dsimp only [applyOp, add_search_query]
    split
    · exact ⟨hf, hq, ha, hs, hv⟩
    · exact ⟨hf, hq, ha, trim_length_le max_items m.search_queries _ hs, hv⟩
  | addVisitedSource s =>
    dsimp only [applyOp, add_visited_source]
    split
    · exact ⟨hf, hq, ha, hs, hv⟩
    · exact ⟨hf, hq, ha, hs, trim_length_le max_items m.visited_sources _ hv⟩

/-- Capacity bound on every reachable memory state. -/
theorem lengthsInv_runOps (ops : List MemOp) :
    LengthsInv max_items (runOps sqrt embed simThreshold max_items ops) := by
  suffices h : ∀ m, LengthsInv max_items m →
      LengthsInv max_items (ops.foldl (applyOp sqrt embed simThreshold max_items) m) by
    exact h {} ⟨Nat.zero_le _, Nat.zero_le _, Nat.zero_le _, Nat.zero_le _, Nat.zero_le _⟩
  induction ops with
  | nil => exact fun m hm => hm
  | cons op ops ih =>
    exact fun m hm => ih _ (lengthsInv_applyOp sqrt embed simThreshold max_items m op hm)

/-- C2: on every reachable memory state the facts and questions lists stay
within `max_items`, and a successful (non-duplicate) insertion appends the
new entry, evicting exactly the oldest entry — the list's head — when the
list stood at capacity (capacity at least 1), and evicting nothing when it
stood below capacity. -/
theorem C2_capacity_and_oldest_eviction (ops : List MemOp)
    (content source question : String) :
    ((runOps sqrt embed simThreshold max_items ops).facts.length ≤ max_items
      ∧ (runOps sqrt embed simThreshold max_items ops).questions.length ≤ max_items)
    ∧ (is_duplicate sqrt embed simThreshold none content
          ((runOps sqrt embed simThreshold max_items ops).facts.map (·.content)) = false →
        ((runOps sqrt embed simThreshold max_items ops).facts.length < max_items →
          (add_fact sqrt embed simThreshold max_items
              (runOps sqrt embed simThreshold max_items ops) content source).2.facts
            = (runOps sqrt embed simThreshold max_items ops).facts
                ++ [{ content := content, source := source }])
        ∧ ((runOps sqrt embed simThreshold max_items ops).facts.length = max_items →
            0 < max_items →
          (add_fact sqrt embed simThreshold max_items
              (runOps sqrt embed simThreshold max_items ops) content source).2.facts
            = (runOps sqrt embed simThreshold max_items ops).facts.tail
                ++ [{ content := content, source := source }]))
    ∧ (is_duplicate sqrt embed simThreshold none question
          ((runOps sqrt embed simThreshold max_items ops).questions
            ++ (runOps sqrt embed simThreshold max_items ops).answered_questions) = false →
        ((runOps sqrt embed simThreshold max_items ops).questions.length < max_items →
          (add_question sqrt embed simThreshold max_items
              (runOps sqrt embed simThreshold max_items ops) question).2.questions
            = (runOps sqrt embed simThreshold max_items ops).questions ++ [question])
        ∧ ((runOps sqrt embed simThreshold max_items ops).questions.length = max_items →
            0 < max_items →
          (add_question sqrt embed simThreshold max_items
              (runOps sqrt embed simThreshold max_items ops) question).2.questions
            = (runOps sqrt embed simThreshold max_items ops).questions.tail
                ++ [question])) := by
  obtain ⟨hf, hq, -, -, -⟩ := lengthsInv_runOps sqrt embed simThreshold max_items ops
  set m := runOps sqrt embed simThreshold max_items ops with hm
  refine ⟨⟨hf, hq⟩, fun hdup => ⟨fun hlt => ?_, fun heq hpos => ?_⟩,
    fun hdup => ⟨fun hlt => ?_, fun heq hpos => ?_⟩⟩
  · simp only [add_fact, hdup, Bool.false_eq_true, if_false]
    rw [if_neg (by simp only [List.length_append, List.length_singleton]; omega)]
  · simp only [add_fact, hdup, Bool.false_eq_true, if_false]
    rw [if_pos (by simp only [List.length_append, List.length_singleton]; omega)]
    exact tail_append_singleton m.facts _ (by intro hnil; rw [hnil] at heq; simp at heq; omega)
  · simp only [add_question, hdup, Bool.false_eq_true, if_false]
    rw [if_neg (by simp only [List.length_append, List.length_singleton]; omega)]
  · simp only [add_question, hdup, Bool.false_eq_true, if_false]
    rw [if_pos (by simp only [List.length_append, List.length_singleton]; omega)]
    exact tail_append_singleton m.questions _
      (by intro hnil; rw [hnil] at heq; simp at heq; omega)

/-- C2 witness: over `ℚ` with capacity 1, one stored fact, and a
non-duplicate insertion, the eviction drops exactly the stored head. -/
theorem C2_capacity_and_oldest_eviction_witness :
    (is_duplicate (fun _ => (0 : ℚ)) (fun _ => []) 1 none "b"
        ((runOps (fun _ => (0 : ℚ)) (fun _ => []) 1 1
          [.addFact "a" "srcA"]).facts.map (·.content)) = false)
    ∧ (runOps (fun _ => (0 : ℚ)) (fun _ => []) 1 1 [.addFact "a" "srcA"]).facts.length = 1
    ∧ (add_fact (fun _ => (0 : ℚ)) (fun _ => []) 1 1
          (runOps (fun _ => (0 : ℚ)) (fun _ => []) 1 1 [.addFact "a" "srcA"]) "b" "srcB").2.facts
        = (runOps (fun _ => (0 : ℚ)) (fun _ => []) 1 1 [.addFact "a" "srcA"]).facts.tail
            ++ [{ content := "b", source := "srcB" }] := by
  have hdup : is_duplicate (fun _ => (0 : ℚ)) (fun _ => []) 1 none "b"
      ((runOps (fun _ => (0 : ℚ)) (fun _ => []) 1 1
        [.addFact "a" "srcA"]).facts.map (·.content)) = false := by
    have hfacts : (runOps (fun _ => (0 : ℚ)) (fun _ => []) 1 1 [.addFact "a" "srcA"]).facts
        = [{ content := "a", source := "srcA" }] := rfl
    rw [hfacts]
    norm_num [is_duplicate, find_most_similar, np_argmax_with_value, argmaxGo,
      cosine_similarity, norm, dot]
  refine ⟨hdup, rfl, ?_⟩
  exact ((C2_capacity_and_oldest_eviction (fun _ => (0 : ℚ)) (fun _ => []) 1 1
    [.addFact "a" "srcA"] "b" "srcB" "q").2.1 hdup).2 rfl (by decide)

/-! ## Questions / answered-questions disjointness (towards C3)

The dedup collaborator contract: a sane embedder reports every string as a
duplicate of any list containing that very string, because its cosine
similarity to itself reaches the threshold.  This is the `hself`
hypothesis below; it holds of the real embedding model (self-similarity 1
against the configured threshold 0.85) and fails only for degenerate
collaborators (zero-norm embeddings) or thresholds above 1. -/

theorem mem_implies_is_duplicate
    (hself : ∀ s : String, simThreshold ≤ cosine_similarity sqrt (embed s) (embed s))
    (q : String) (l : List String) (hq : q ∈ l) :
    is_duplicate sqrt embed simThreshold none q l = true :=
  (is_duplicate_iff sqrt embed simThreshold none q l).mpr
    ⟨q, hq, by simpa using hself q⟩

/-- Every memory operation preserves the questions-side invariant, given a
self-duplicate-detecting embedder. -/
theorem questionsInv_applyOp
    (hself : ∀ s : String, simThreshold ≤ cosine_similarity sqrt (embed s) (embed s))
    (m : ResearchMemory) (op : MemOp) (h : QuestionsInv m) :
    QuestionsInv (applyOp sqrt embed simThreshold max_items m op) := by
  obtain ⟨hnd, hdisj⟩ := h
  cases op with
  | addFact content source =>
    dsimp only [applyOp, add_fact]
    split
    · exact ⟨hnd, hdisj⟩
    · exact ⟨hnd, hdisj⟩
  | addSearchQuery q =>
    dsimp only [applyOp, add_search_query]
    split
    · exact ⟨hnd, hdisj⟩
    · exact ⟨hnd, hdisj⟩
  | addVisitedSource s =>
    dsimp only [applyOp, add_visited_source]
    split
    · exact ⟨hnd, hdisj⟩
    · exact ⟨hnd, hdisj⟩
  | addQuestion q =>
    dsimp only [applyOp, add_question]
    split
    case isTrue => exact ⟨hnd, hdisj⟩
    case isFalse hdup =>
      have hq : q ∉ m.questions ++ m.answered_questions := fun hmem =>
        hdup (mem_implies_is_duplicate sqrt embed simThreshold hself q _ hmem)
      rw [List.mem_append, not_or] at hq
      obtain ⟨hq1, hq2⟩ := hq
      have hnodup : (m.questions ++ [q]).Nodup := by
        rw [List.nodup_append]
        exact ⟨hnd, List.nodup_singleton q, by
          intro s hs hsq
          rw [List.mem_singleton] at hsq
          exact hq1 (hsq ▸ hs)⟩
      constructor
      · split
        · exact List.Nodup.sublist (List.tail_sublist _) hnodup
        · exact hnodup
      · intro s hs hsa
        have hs' : s ∈ m.questions ++ [q] := by
          revert hs
          split
          · exact fun hs => (List.tail_sublist _).subset hs
          · exact id
        rcases List.mem_append.mp hs' with h1 | h1
        · exact hdisj s h1 hsa
        · rw [List.mem_singleton] at h1
          exact hq2 (h1 ▸ hsa)
  | markQuestionAnswered q =>
    dsimp only [applyOp, mark_question_answered]
    split
    case isTrue hqin =>
      refine ⟨List.Nodup.erase q hnd, ?_⟩
      intro s hs hsa'
      obtain ⟨hsq, hsmem⟩ := (List.Nodup.mem_erase_iff hnd).mp hs
      have hsa : s ∈ m.answered_questions ++ [q] := by
        revert hsa'
        split
        · exact fun h1 => (List.tail_sublist _).subset h1
        · exact id
      rcases List.mem_append.mp hsa with h1 | h1
      · exact hdisj s hsmem h1
      · rw [List.mem_singleton] at h1
        exact hsq h1
    case isFalse => exact ⟨hnd, hdisj⟩

/-- The questions-side invariant holds on every reachable memory state. -/
theorem questionsInv_runOps
    (hself : ∀ s : String, simThreshold ≤ cosine_similarity sqrt (embed s) (embed s))
    (ops : List MemOp) :
    QuestionsInv (runOps sqrt embed simThreshold max_items ops) := by
  suffices h : ∀ m, QuestionsInv m →
      QuestionsInv (ops.foldl (applyOp sqrt embed simThreshold max_items) m) by
    exact h {} ⟨List.nodup_nil, by intro s hs; simp at hs⟩
  induction ops with
  | nil => exact fun m hm => hm
  | cons op ops ih =>
    exact fun m hm =>
      ih _ (questionsInv_applyOp sqrt embed simThreshold max_items hself m op hm)

/-- C3: with an embedder that flags a string as a duplicate of itself
(self-similarity at least the threshold, true of the real collaborator),
no reachable memory state lists a string as both open and answered;
`mark_question_answered` on an open question removes exactly that string
from `questions` and appends it to `answered_questions` (touching no other
field), and on a non-open question it leaves the memory unchanged — both
by exact string match. -/
theorem C3_open_answered_exclusive
    (hself : ∀ s : String, simThreshold ≤ cosine_similarity sqrt (embed s) (embed s))
    (ops : List MemOp) (question : String) :
    (∀ s, ¬(s ∈ (runOps sqrt embed simThreshold max_items ops).questions
      ∧ s ∈ (runOps sqrt embed simThreshold max_items ops).answered_questions))
    ∧ (question ∈ (runOps sqrt embed simThreshold max_items ops).questions →
        0 < max_items →
        (mark_question_answered max_items
            (runOps sqrt embed simThreshold max_items ops) question).questions
          = (runOps sqrt embed simThreshold max_items ops).questions.erase question
        ∧ (∃ earlier,
            (mark_question_answered max_items
                (runOps sqrt embed simThreshold max_items ops) question).answered_questions
              = earlier ++ [question])
        ∧ (mark_question_answered max_items
              (runOps sqrt embed simThreshold max_items ops) question).facts
            = (runOps sqrt embed simThreshold max_items ops).facts
        ∧ (mark_question_answered max_items
              (runOps sqrt embed simThreshold max_items ops) question).search_queries
            = (runOps sqrt embed simThreshold max_items ops).search_queries
        ∧ (mark_question_answered max_items
              (runOps sqrt embed simThreshold max_items ops) question).visited_sources
            = (runOps sqrt embed simThreshold max_items ops).visited_sources)
    ∧ (question ∉ (runOps sqrt embed simThreshold max_items ops).questions →
        mark_question_answered max_items
            (runOps sqrt embed simThreshold max_items ops) question
          = runOps sqrt embed simThreshold max_items ops) := by
  obtain ⟨hnd, hdisj⟩ := questionsInv_runOps sqrt embed simThreshold max_items hself ops
  set m := runOps sqrt embed simThreshold max_items ops with hm
  refine ⟨fun s hs => hdisj s hs.1 hs.2, fun hqin hpos => ?_, fun hqout => ?_⟩
  · unfold mark_question_answered
    rw [if_pos hqin]
    refine ⟨rfl, ?_, rfl, rfl, rfl⟩
    dsimp only
    split
    case isTrue hover =>
      refine ⟨m.answered_questions.tail,
        tail_append_singleton m.answered_questions question ?_⟩
      intro hnil
      rw [hnil] at hover
      simp at hover
      omega
    case isFalse => exact ⟨m.answered_questions, rfl⟩
  · unfold mark_question_answered
    rw [if_neg hqout]

/-- C3 witness: over `ℚ` with unit embeddings and the configured 0.85
threshold, the invariant and the exact-match move are observed on the
reachable state holding one open question. -/
theorem C3_open_answered_exclusive_witness :
    (∀ s : String, (85/100 : ℚ) ≤
        cosine_similarity id ((fun _ => [(1 : ℚ)]) s) ((fun _ => [(1 : ℚ)]) s))
    ∧ "a" ∈ (runOps id (fun _ => [(1 : ℚ)]) (85/100) 100 [.addQuestion "a"]).questions
    ∧ (0 : Nat) < 100
    ∧ (mark_question_answered 100
          (runOps id (fun _ => [(1 : ℚ)]) (85/100) 100 [.addQuestion "a"]) "a").questions
        = (runOps id (fun _ => [(1 : ℚ)]) (85/100) 100 [.addQuestion "a"]).questions.erase "a"
    ∧ (∃ earlier, (mark_question_answered 100
          (runOps id (fun _ => [(1 : ℚ)]) (85/100) 100 [.addQuestion "a"]) "a").answered_questions
        = earlier ++ ["a"]) := by
  have hself : ∀ s : String, (85/100 : ℚ) ≤
      cosine_similarity id ((fun _ => [(1 : ℚ)]) s) ((fun _ => [(1 : ℚ)]) s) := by
    intro s
    norm_num [cosine_similarity, dot, norm]
  have hmem : "a" ∈ (runOps id (fun _ => [(1 : ℚ)]) (85/100) 100 [.addQuestion "a"]).questions := by
    have : (runOps id (fun _ => [(1 : ℚ)]) (85/100) 100 [.addQuestion "a"]).questions = ["a"] := rfl
    rw [this]
    exact List.mem_singleton.mpr rfl
  have h := (C3_open_answered_exclusive id (fun _ => [(1 : ℚ)]) (85/100) 100 hself
    [.addQuestion "a"] "a").2.1 hmem (by decide)
  exact ⟨hself, hmem, by decide, h.1, h.2.1⟩

/-! ## Relevance ranking (towards C5)

Python's `list.sort(key=similarity, reverse=True)` is a stable descending
sort: equal keys keep their original relative order.  `List.mergeSort`
with the descending comparison has the same semantics; the lemma
`enumLE_desc_eq_lexicographic` identifies the index-refined comparison of
the stability theorem `List.mergeSort_enum` with the lexicographic
"descending similarity, then ascending insertion index" order that the
claim states. -/

theorem enumLE_desc_eq_lexicographic (a b : Nat × (MemoryItem × α)) :
    List.enumLE (fun p q : MemoryItem × α => decide (q.2 ≤ p.2)) a b =
      decide (b.2.2 < a.2.2 ∨ (a.2.2 = b.2.2 ∧ a.1 ≤ b.1)) := by
  rcases a with ⟨i, x, sx⟩
  rcases b with ⟨j, y, sy⟩
  rcases lt_trichotomy sx sy with h | h | h
  · have h1 : ¬ sy ≤ sx := not_le.mpr h
    have h2 : ¬ sy < sx := lt_asymm h
    have h3 : sx ≠ sy := ne_of_lt h
    simp [List.enumLE, h1, h2, h3]
  · subst h
    simp [List.enumLE]
  · have h1 : sy ≤ sx := h.le
    have h2 : ¬ sx ≤ sy := not_le.mpr h
    simp [List.enumLE, h1, h2, h]

/-- C5: the relevance query returns at most `max_facts` items; its result
is exactly the facts ordered by descending cosine similarity to the query
with ties between equal similarities broken by the original insertion
index; and on an empty fact list it returns `[]` for every embedding
function (no embedding call is made). -/
theorem C5_relevant_facts_ranking (m : ResearchMemory) (query : String)
    (max_facts : Nat) :
    (get_relevant_facts sqrt embed m query max_facts).length ≤ max_facts
    ∧ get_relevant_facts sqrt embed m query max_facts
        = relevantFactsSpec sqrt embed m query max_facts
    ∧ (m.facts = [] → ∀ embed2 : String → List α,
        get_relevant_facts sqrt embed2 m query max_facts = []) := by
  refine ⟨?_, ?_, fun hnil embed2 => by simp [get_relevant_facts, hnil]⟩
  · unfold get_relevant_facts
    split
    · simp
    · exact List.length_take_le max_facts _
  · unfold get_relevant_facts relevantFactsSpec
    cases hE : m.facts.isEmpty
    case true => simp [hE]
    case false =>
      simp only [hE, Bool.false_eq_true, if_false]
      have hzip : ∀ l : List MemoryItem, l.zip
            (l.map fun item =>
              cosine_similarity sqrt (embed query) (embed item.content))
          = l.map fun item =>
              (item, cosine_similarity sqrt (embed query) (embed item.content)) := by
        intro l
        induction l with
        | nil => rfl
        | cons a l ih => simp [ih]
      rw [hzip m.facts, ← List.mergeSort_enum, List.map_map]
      have hle : (List.enumLE (fun p q : MemoryItem × α => decide (q.2 ≤ p.2)))
          = fun a b : Nat × (MemoryItem × α) =>
              decide (b.2.2 < a.2.2 ∨ (a.2.2 = b.2.2 ∧ a.1 ≤ b.1)) :=
        funext fun a => funext fun b => enumLE_desc_eq_lexicographic a b
      rw [hle]
      rfl

/-- C5 witness: on the empty memory the ranking is empty for every
embedder, and the bound holds. -/
theorem C5_relevant_facts_ranking_witness :
    ({} : ResearchMemory).facts = []
    ∧ (∀ embed2 : String → List ℚ,
        get_relevant_facts (fun _ => (0 : ℚ)) embed2 {} "q" 5 = [])
    ∧ (get_relevant_facts (fun _ => (0 : ℚ)) (fun _ => []) {} "q" 5).length ≤ 5 :=
  ⟨rfl,
    (C5_relevant_facts_ranking (fun _ => (0 : ℚ)) (fun _ => []) {} "q" 5).2.2 rfl,
    (C5_relevant_facts_ranking (fun _ => (0 : ℚ)) (fun _ => []) {} "q" 5).1⟩

/-! ## Query-expansion fallback ladder (towards C6) -/

/-- The raw-text portion of the ladder: the source's inline
bracket-then-lines fallback equals the prioritized strategies of the
specification. -/
theorem ladder_text_case (jsonLoads : String → Option PyJson) (text query : String) :
    (match strategyBracketArray jsonLoads text with
     | some expanded_queries => expanded_queries
     | none =>
       if (((pySplit '\n' text).map pyStrip).filter (· ≠ "")).isEmpty then [query]
       else ((pySplit '\n' text).map pyStrip).filter (· ≠ ""))
    = ((strategyBracketArray jsonLoads text).orElse
        (fun _ => strategyLines text)).getD [query] := by
  cases hB : strategyBracketArray jsonLoads text with
  | some qs => simp [Option.orElse]
  | none =>
    simp only [Option.orElse]
    unfold strategyLines
    dsimp only
    by_cases hq : (((pySplit '\n' text).map pyStrip).filter (· ≠ "")).isEmpty = true
    · rw [if_pos hq, if_pos hq]
      rfl
    · rw [if_neg hq, if_neg hq]
      rfl

/-- C6: `expand_query` implements the fallback ladder exactly — a
schema-shaped `queries` list is returned as is; otherwise, with raw text
present, the first-`[`-to-last-`]` substring parsed as a literal array is
returned when it parses to a list; failing that the raw text's non-empty
stripped lines; failing that the original query alone.  In particular raw
text `"q1\nq2\n"` yields `["q1", "q2"]` and empty raw text yields the
original query, independently of the other collaborators. -/
theorem C6_expand_query_fallback_ladder (jsonLoads : String → Option PyJson)
    (collab : Collab) (query : String) (context : Option String) :
    expand_query jsonLoads collab query context
      = expandLadderSpec jsonLoads
          (collab.generateStructured (expandUserPrompt query context) expandSystemPrompt)
          query
    ∧ (∀ (g : String → String → String) (sn : String → List Article),
        expand_query jsonLoads ⟨g, fun _ _ => { text := some "q1\nq2\n" }, sn⟩ query context
          = ["q1", "q2"])
    ∧ (∀ (g : String → String → String) (sn : String → List Article),
        expand_query jsonLoads ⟨g, fun _ _ => { text := some "" }, sn⟩ query context
          = [query]) := by
  refine ⟨?_, fun g sn => rfl, fun g sn => rfl⟩
  unfold expand_query expandLadderSpec
  dsimp only
  cases hQ : (collab.generateStructured (expandUserPrompt query context) expandSystemPrompt).queries with
  | some qs => rfl
  | none =>
    cases hT : (collab.generateStructured (expandUserPrompt query context) expandSystemPrompt).text with
    | none => rfl
    | some text => exact ladder_text_case jsonLoads text query

/-! ## Research-loop invariants (towards C7 and C9) -/

/-- One executed step never touches the step counter, the token counter,
the query, or the ghost budget flag — only planning reads the counter, and
no action writes it. -/
theorem do_step_preserves (st : SessionState) :
    (do_step sqrt embed simThreshold max_items collab jsonLoads max_steps st).current_step
        = st.current_step
    ∧ (do_step sqrt embed simThreshold max_items collab jsonLoads max_steps st).total_tokens_used
        = st.total_tokens_used
    ∧ (do_step sqrt embed simThreshold max_items collab jsonLoads max_steps st).research_query
        = st.research_query
    ∧ (do_step sqrt embed simThreshold max_items collab jsonLoads max_steps st).budget_exceeded
        = st.budget_exceeded := by
  rcases hpr : plan_next_action st.memory st.current_step max_steps st.research_query
    with ⟨act, p⟩
  unfold do_step
  rw [hpr]
  cases act <;>
    simp [execute_search, execute_read, execute_reason, generate_final_answer]

/-- A step taken from an incomplete state yields a state whose answer, if
the step completed the research, is the synthesis over its memory — the
`ANSWER` action is the only way to complete, and it runs
`_generate_final_answer` on the spot. -/
theorem do_step_answerSynthesized (st : SessionState)
    (h : st.research_complete = false) :
    AnswerSynthesized collab
      (do_step sqrt embed simThreshold max_items collab jsonLoads max_steps st) := by
  rcases hpr : plan_next_action st.memory st.current_step max_steps st.research_query
    with ⟨act, p⟩
  unfold do_step
  rw [hpr]
  cases act with
  | search => simp [AnswerSynthesized, execute_search, h]
  | read => simp [AnswerSynthesized, execute_read, h]
  | reason => simp [AnswerSynthesized, execute_reason, h]
  | answer => exact fun _ => rfl

/-- The loop never changes the token counter. -/
theorem research_loop_tokens (fuel : Nat) : ∀ st : SessionState,
    (research_loop sqrt embed simThreshold max_items collab jsonLoads
        max_steps token_budget fuel st).total_tokens_used
      = st.total_tokens_used := by
  induction fuel with
  | zero => intro st; rfl
  | succ fuel ih =>
    intro st
    simp only [research_loop]
    by_cases hc : st.research_complete = false ∧ st.current_step < max_steps
    · rw [if_pos hc]
      by_cases hb : token_budget ≤ st.total_tokens_used
      · rw [if_pos hb]
      · rw [if_neg hb, ih]
        exact (do_step_preserves sqrt embed simThreshold max_items collab jsonLoads
          max_steps _).2.1
    · rw [if_neg hc]

/-- The loop never changes the research query. -/
theorem research_loop_query (fuel : Nat) : ∀ st : SessionState,
    (research_loop sqrt embed simThreshold max_items collab jsonLoads
        max_steps token_budget fuel st).research_query
      = st.research_query := by
  induction fuel with
  | zero => intro st; rfl
  | succ fuel ih =>
    intro st
    simp only [research_loop]
    by_cases hc : st.research_complete = false ∧ st.current_step < max_steps
    · rw [if_pos hc]
      by_cases hb : token_budget ≤ st.total_tokens_used
      · rw [if_pos hb]
      · rw [if_neg hb, ih]
        exact (do_step_preserves sqrt embed simThreshold max_items collab jsonLoads
          max_steps _).2.2.1
    · rw [if_neg hc]

/-- The loop keeps the step counter within `max_steps`: the guard admits
an iteration only below the bound, and each iteration increments once. -/
theorem research_loop_step_le (fuel : Nat) : ∀ st : SessionState,
    st.current_step ≤ max_steps →
    (research_loop sqrt embed simThreshold max_items collab jsonLoads
        max_steps token_budget fuel st).current_step ≤ max_steps := by
  induction fuel with
  | zero => intro st h; exact h
  | succ fuel ih =>
    intro st h
    simp only [research_loop]
    by_cases hc : st.research_complete = false ∧ st.current_step < max_steps
    · rw [if_pos hc]
      by_cases hb : token_budget ≤ st.total_tokens_used
      · rw [if_pos hb]
        exact hc.2
      · rw [if_neg hb]
        refine ih _ ?_
        rw [(do_step_preserves sqrt embed simThreshold max_items collab jsonLoads
          max_steps _).1]
        exact hc.2
    · rw [if_neg hc]
      exact h

/-- The loop preserves the completed-answer invariant. -/
theorem research_loop_answerSynthesized (fuel : Nat) : ∀ st : SessionState,
    AnswerSynthesized collab st →
    AnswerSynthesized collab
      (research_loop sqrt embed simThreshold max_items collab jsonLoads
        max_steps token_budget fuel st) := by
  induction fuel with
  | zero => intro st h; exact h
  | succ fuel ih =>
    intro st h
    simp only [research_loop]
    by_cases hc : st.research_complete = false ∧ st.current_step < max_steps
    · rw [if_pos hc]
      by_cases hb : token_budget ≤ st.total_tokens_used
      · rw [if_pos hb]
        intro habs
        have hst : st.research_complete = true := habs
        rw [hc.1] at hst
        exact absurd hst (by simp)
      · rw [if_neg hb]
        refine ih _ ?_
        exact do_step_answerSynthesized sqrt embed simThreshold max_items collab
          jsonLoads max_steps _ hc.1
    · rw [if_neg hc]
      exact h

/-- With a positive budget and an untouched (zero) token counter the
budget `break` never fires, and the loop can only stop because the
research completed or the step counter reached `max_steps`. -/
theorem research_loop_exit (h0 : 0 < token_budget) (fuel : Nat) :
    ∀ st : SessionState,
    st.total_tokens_used = 0 → st.budget_exceeded = false →
    max_steps ≤ st.current_step + fuel → st.current_step ≤ max_steps →
    (research_loop sqrt embed simThreshold max_items collab jsonLoads
        max_steps token_budget fuel st).budget_exceeded = false
    ∧ ((research_loop sqrt embed simThreshold max_items collab jsonLoads
          max_steps token_budget fuel st).research_complete = true
        ∨ (research_loop sqrt embed simThreshold max_items collab jsonLoads
            max_steps token_budget fuel st).current_step = max_steps) := by
  induction fuel with
  | zero =>
    intro st htok hflag hfuel hle
    refine ⟨hflag, Or.inr ?_⟩
    show st.current_step = max_steps
    omega
  | succ fuel ih =>
    intro st htok hflag hfuel hle
    simp only [research_loop]
    by_cases hc : st.research_complete = false ∧ st.current_step < max_steps
    · rw [if_pos hc]
      have hb : ¬ token_budget ≤ st.total_tokens_used := by omega
      rw [if_neg hb]
      obtain ⟨hp1, hp2, -, hp4⟩ := do_step_preserves sqrt embed simThreshold max_items
        collab jsonLoads max_steps
        ({ st with current_step := st.current_step + 1 } : SessionState)
      refine ih _ ?_ ?_ ?_ ?_
      · rw [hp2]; exact htok
      · rw [hp4]; exact hflag
      · rw [hp1]; dsimp only; omega
      · rw [hp1]; exact hc.2
    · rw [if_neg hc]
      refine ⟨hflag, ?_⟩
      rcases Bool.eq_false_or_eq_true st.research_complete with ht | hf
      · exact Or.inl ht
      · rw [not_and, not_lt] at hc
        exact Or.inr (le_antisymm hle (hc hf))

/-- The trailing forced-finalization `if` changes only the answer. -/
theorem finalize_preserves (st : SessionState) :
    (if st.research_complete = false then generate_final_answer collab st
      else st).total_tokens_used = st.total_tokens_used
    ∧ (if st.research_complete = false then generate_final_answer collab st
        else st).budget_exceeded = st.budget_exceeded
    ∧ (if st.research_complete = false then generate_final_answer collab st
        else st).research_complete = st.research_complete
    ∧ (if st.research_complete = false then generate_final_answer collab st
        else st).current_step = st.current_step
    ∧ (if st.research_complete = false then generate_final_answer collab st
        else st).memory = st.memory
    ∧ (if st.research_complete = false then generate_final_answer collab st
        else st).research_query = st.research_query := by
  by_cases hc : st.research_complete = false <;>
    simp [hc, generate_final_answer]

/-- Whatever the loop left behind, the value returned by `research` is the
model's synthesis over the final memory: either the `ANSWER` action
already produced it (and nothing ran afterwards), or the forced
finalization produces it now. -/
theorem finalize_answer (st : SessionState) (hAns : AnswerSynthesized collab st) :
    (if st.research_complete = false then generate_final_answer collab st
      else st).answer
      = collab.generate
          (answerUserPrompt st.research_query
            (formatFactLines
              ((if st.research_complete = false then generate_final_answer collab st
                else st).memory.facts)))
          answerSystemPrompt := by
  by_cases hc : st.research_complete = false
  · rw [if_pos hc]
    rfl
  · rw [if_neg hc]
    have hct : st.research_complete = true := by
      revert hc; cases st.research_complete <;> simp
    exact hAns hct

/-- Post-state of `research` from any freshly reset session state: the
step counter stays within `max_steps`, the returned answer is always the
model's synthesis over the final facts, the token counter remains 0, and
under a positive budget the budget break never fired and the loop ended
by `ANSWER` or by the step limit. -/
theorem research_post (st0 : SessionState) (h0c : st0.research_complete = false)
    (h0t : st0.total_tokens_used = 0) (h0b : st0.budget_exceeded = false)
    (h0s : st0.current_step = 0) :
    (if (research_loop sqrt embed simThreshold max_items collab jsonLoads
          max_steps token_budget max_steps st0).research_complete = false
      then generate_final_answer collab
        (research_loop sqrt embed simThreshold max_items collab jsonLoads
          max_steps token_budget max_steps st0)
      else research_loop sqrt embed simThreshold max_items collab jsonLoads
        max_steps token_budget max_steps st0).current_step ≤ max_steps
    ∧ (if (research_loop sqrt embed simThreshold max_items collab jsonLoads
            max_steps token_budget max_steps st0).research_complete = false
        then generate_final_answer collab
          (research_loop sqrt embed simThreshold max_items collab jsonLoads
            max_steps token_budget max_steps st0)
        else research_loop sqrt embed simThreshold max_items collab jsonLoads
          max_steps token_budget max_steps st0).answer
        = collab.generate
            (answerUserPrompt st0.research_query
              (formatFactLines
                (if (research_loop sqrt embed simThreshold max_items collab jsonLoads
                      max_steps token_budget max_steps st0).research_complete = false
                  then generate_final_answer collab
                    (research_loop sqrt embed simThreshold max_items collab jsonLoads
                      max_steps token_budget max_steps st0)
                  else research_loop sqrt embed simThreshold max_items collab jsonLoads
                    max_steps token_budget max_steps st0).memory.facts))
            answerSystemPrompt
    ∧ (if (research_loop sqrt embed simThreshold max_items collab jsonLoads
            max_steps token_budget max_steps st0).research_complete = false
        then generate_final_answer collab
          (research_loop sqrt embed simThreshold max_items collab jsonLoads
            max_steps token_budget max_steps st0)
        else research_loop sqrt embed simThreshold max_items collab jsonLoads
          max_steps token_budget max_steps st0).total_tokens_used = 0
    ∧ (0 < token_budget →
        (if (research_loop sqrt embed simThreshold max_items collab jsonLoads
              max_steps token_budget max_steps st0).research_complete = false
          then generate_final_answer collab
            (research_loop sqrt embed simThreshold max_items collab jsonLoads
              max_steps token_budget max_steps st0)
          else research_loop sqrt embed simThreshold max_items collab jsonLoads
            max_steps token_budget max_steps st0).budget_exceeded = false
        ∧ ((if (research_loop sqrt embed simThreshold max_items collab jsonLoads
                max_steps token_budget max_steps st0).research_complete = false
            then generate_final_answer collab
              (research_loop sqrt embed simThreshold max_items collab jsonLoads
                max_steps token_budget max_steps st0)
            else research_loop sqrt embed simThreshold max_items collab jsonLoads
              max_steps token_budget max_steps st0).research_complete = true
          ∨ (if (research_loop sqrt embed simThreshold max_items collab jsonLoads
                  max_steps token_budget max_steps st0).research_complete = false
              then generate_final_answer collab
                (research_loop sqrt embed simThreshold max_items collab jsonLoads
                  max_steps token_budget max_steps st0)
              else research_loop sqrt embed simThreshold max_items collab jsonLoads
                max_steps token_budget max_steps st0).current_step = max_steps)) := by
  set L := research_loop sqrt embed simThreshold max_items collab jsonLoads
    max_steps token_budget max_steps st0 with hLdef
  have hq : L.research_query = st0.research_query :=
    research_loop_query sqrt embed simThreshold max_items collab jsonLoads
      max_steps token_budget max_steps st0
  have htok : L.total_tokens_used = st0.total_tokens_used :=
    research_loop_tokens sqrt embed simThreshold max_items collab jsonLoads
      max_steps token_budget max_steps st0
  have hstep : L.current_step ≤ max_steps :=
    research_loop_step_le sqrt embed simThreshold max_items collab jsonLoads
      max_steps token_budget max_steps st0 (by rw [h0s]; exact Nat.zero_le _)
  have hAns : AnswerSynthesized collab L :=
    research_loop_answerSynthesized sqrt embed simThreshold max_items collab jsonLoads
      max_steps token_budget max_steps st0
      (fun h => absurd h (by rw [h0c]; simp))
  obtain ⟨f1, f2, f3, f4, f5, f6⟩ := finalize_preserves collab L
  refine ⟨?_, ?_, ?_, fun hpos => ?_⟩
  · rw [f4]; exact hstep
  · have h := finalize_answer collab L hAns
    rw [hq] at h
    exact h
  · rw [f1, htok, h0t]
  · obtain ⟨e1, e2⟩ :=
      research_loop_exit sqrt embed simThreshold max_items collab jsonLoads
        max_steps token_budget hpos max_steps st0 h0t h0b (by omega)
        (by rw [h0s]; exact Nat.zero_le _)
    refine ⟨by rw [f2]; exact e1, ?_⟩
    rcases e2 with h | h
    · exact Or.inl (by rw [f3]; exact h)
    · exact Or.inr (by rw [f4]; exact h)

/-- C7: `research` runs at most `max_steps` loop iterations (the final
step counter equals the number of iterations taken and never exceeds the
bound), and the returned answer is always the model's synthesis of the
answer prompt over the collected facts — the `ANSWER` execution path runs
as a forced finalization whenever the loop exits without it — so the
answer is non-empty whenever the model's outputs are; in particular this
holds at `max_steps = 1`. -/
theorem C7_termination_and_forced_finalization (query : String) :
    (research sqrt embed simThreshold max_items collab jsonLoads
        max_steps token_budget query).current_step ≤ max_steps
    ∧ (research sqrt embed simThreshold max_items collab jsonLoads
          max_steps token_budget query).answer
        = collab.generate
            (answerUserPrompt query
              (formatFactLines
                (research sqrt embed simThreshold max_items collab jsonLoads
                  max_steps token_budget query).memory.facts))
            answerSystemPrompt
    ∧ ((∀ p s : String, collab.generate p s ≠ "") →
        (research sqrt embed simThreshold max_items collab jsonLoads
          max_steps token_budget query).answer ≠ "") := by
  have h := research_post sqrt embed simThreshold max_items collab jsonLoads
    max_steps token_budget
    { current_step := 0, total_tokens_used := 0, research_query := query
      research_complete := false, answer := ""
      memory := (add_question sqrt embed simThreshold max_items {} query).2 }
    rfl rfl rfl rfl
  have h1 : (research sqrt embed simThreshold max_items collab jsonLoads
      max_steps token_budget query).current_step ≤ max_steps := h.1
  have h2 : (research sqrt embed simThreshold max_items collab jsonLoads
        max_steps token_budget query).answer
      = collab.generate
          (answerUserPrompt query
            (formatFactLines
              (research sqrt embed simThreshold max_items collab jsonLoads
                max_steps token_budget query).memory.facts))
          answerSystemPrompt := h.2.1
  refine ⟨h1, h2, fun hne => ?_⟩
  rw [h2]
  exact hne _ _

/-- C7 witness: a one-step run with a concrete model stub returns a
non-empty answer within the step bound. -/
theorem C7_termination_and_forced_finalization_witness :
    (∀ p s : String, (fun _ _ : String => "ok") p s ≠ "")
    ∧ (research (fun _ => (0 : ℚ)) (fun _ => []) 1 100
        ⟨fun _ _ => "ok", fun _ _ => {}, fun _ => []⟩ (fun _ => none) 1 4096
        "q").current_step ≤ 1
    ∧ (research (fun _ => (0 : ℚ)) (fun _ => []) 1 100
        ⟨fun _ _ => "ok", fun _ _ => {}, fun _ => []⟩ (fun _ => none) 1 4096
        "q").answer ≠ "" := by
  have hne : ∀ p s : String, (fun _ _ : String => "ok") p s ≠ "" := by
    intro p s
    show ("ok" : String) ≠ ""
    decide
  have h := C7_termination_and_forced_finalization (fun _ => (0 : ℚ)) (fun _ => []) 1 100
    ⟨fun _ _ => "ok", fun _ _ => {}, fun _ => []⟩ (fun _ => none) 1 4096 "q"
  exact ⟨hne, h.1, h.2.2 hne⟩

/-- C9: the token counter is reset to 0 by `research` and never
incremented by any loop operation, so with a positive configured budget
the budget-exceeded `break` is unreachable and the loop terminates only
through the `ANSWER` action or the step limit. -/
theorem C9_token_budget_branch_unreachable (query : String) :
    (research sqrt embed simThreshold max_items collab jsonLoads
        max_steps token_budget query).total_tokens_used = 0
    ∧ (0 < token_budget →
        (research sqrt embed simThreshold max_items collab jsonLoads
            max_steps token_budget query).budget_exceeded = false
        ∧ ((research sqrt embed simThreshold max_items collab jsonLoads
              max_steps token_budget query).research_complete = true
          ∨ (research sqrt embed simThreshold max_items collab jsonLoads
              max_steps token_budget query).current_step = max_steps)) := by
  have h := research_post sqrt embed simThreshold max_items collab jsonLoads
    max_steps token_budget
    { current_step := 0, total_tokens_used := 0, research_query := query
      research_complete := false, answer := ""
      memory := (add_question sqrt embed simThreshold max_items {} query).2 }
    rfl rfl rfl rfl
  exact ⟨h.2.2.1, h.2.2.2⟩

/-- C9 witness: at a positive concrete budget the counter stays 0 and the
budget branch is observed not to have fired. -/
theorem C9_token_budget_branch_unreachable_witness :
    (0 : Nat) < 4096
    ∧ (research (fun _ => (0 : ℚ)) (fun _ => []) 1 100
        ⟨fun _ _ => "done", fun _ _ => {}, fun _ => []⟩ (fun _ => none) 2 4096
        "q").total_tokens_used = 0
    ∧ (research (fun _ => (0 : ℚ)) (fun _ => []) 1 100
        ⟨fun _ _ => "done", fun _ _ => {}, fun _ => []⟩ (fun _ => none) 2 4096
        "q").budget_exceeded = false := by
  have h := C9_token_budget_branch_unreachable (fun _ => (0 : ℚ)) (fun _ => []) 1 100
    ⟨fun _ _ => "done", fun _ _ => {}, fun _ => []⟩ (fun _ => none) 2 4096 "q"
  exact ⟨by decide, h.1, (h.2 (by decide)).1⟩

end SPDR
